import Mathlib

/-!
Verification of the result-formatting logic of the two BattINFO example
notebooks (`battinfo_example_timeseries` schema notebook and
`battinfo_example_electrolyte.ipynb`).

The notebooks are shallowly embedded: a SPARQL result row is a record of
the query-declared variables, with optional bindings modelled as
`Option String` (an unbound variable is `none`; Python truthiness of an
rdflib literal is emptiness of its text).  The ontology term index
(`battinfo`) is a list of terms, each carrying an IRI and a list of
preferred labels; `search_one` is lookup by IRI.  Operations that can
raise a Python exception (attribute access on `None`, indexing an empty
label list, reading an unassigned variable) return `Except String`.
-/

/-- An ontology term as exposed by the EMMOntoPy index: an IRI together
with its list of preferred labels (`prefLabel`). -/
structure OntoTerm where
  iri : String
  prefLabel : List String
deriving DecidableEq, Repr

/-- The ontology term index for a session: the `battinfo` object, viewed
as its IRI-to-term lookup capability. -/
abbrev Ontology := List OntoTerm

/-- Embeds `battinfo.search_one(iri=...)`: lookup of a term by IRI.
The argument is the (possibly unbound) row value handed to `iri=`;
no term matches an unbound value. -/
def search_one (onto : Ontology) (iri : Option String) : Option OntoTerm :=
  match iri with
  | none => none
  | some i => List.find? (fun t => t.iri == i) onto

/-- Embeds `battinfo.search_one(iri=x).prefLabel[0]`: attribute access on
the search result followed by indexing the label list.  `search_one`
returning no term makes `.prefLabel` raise (AttributeError); an empty
label list makes `[0]` raise (IndexError). -/
def resolve (onto : Ontology) (iri : Option String) : Except String String :=
  match search_one onto iri with
  | none => Except.error "AttributeError: NoneType object has no attribute prefLabel"
  | some t =>
    match t.prefLabel with
    | [] => Except.error "IndexError: list index out of range"
    | l :: _ => Except.ok l

/-- A result row of the schema notebook query
(`SELECT ?columnName ?columnTitle ?propertyType ?propertyClass ?unit ?required`).
`columnName`, `columnTitle` and `propertyType` come from required triple
patterns; `propertyClass`, `unit` and `required` come from OPTIONAL
patterns and may be unbound. -/
structure SchemaRow where
  columnName : String
  columnTitle : String
  propertyType : String
  propertyClass : Option String
  unit : Option String
  required : Option String
deriving DecidableEq, Repr

/-- Embeds Python `str.lower()`: lowercase the string character by
character. -/
def lower (s : String) : String := ⟨s.data.map Char.toLower⟩

/-- Embeds `"Required" if row.required and row.required.lower() == "true"
else "Optional"`.  An unbound value is falsy; a bound rdflib literal is
falsy exactly when its text is empty. -/
def required_status (required : Option String) : String :=
  match required with
  | none => "Optional"
  | some s => if !s.isEmpty && lower s == "true" then "Required" else "Optional"

/-- Embeds the body of the schema notebook formatting loop for one row:
compute the required status, resolve the property class and the unit to
their first preferred label (either resolution may raise), and build the
output line. -/
def formatSchemaRow (onto : Ontology) (row : SchemaRow) : Except String String := do
  let status := required_status row.required
  let property_name ← resolve onto row.propertyClass
  let unit_name ← resolve onto row.unit
  Except.ok ("Column: " ++ row.columnName ++ " (" ++ row.columnTitle ++ "), " ++
    "Property Class: " ++ property_name ++ ", Unit: " ++ unit_name ++
    ", Required: " ++ status)

/-- Embeds the schema notebook formatting loop: `output = []` followed by
one `output.append(...)` per row; an exception in any iteration aborts
the whole step. -/
def formatSchema (onto : Ontology) (rows : List SchemaRow) : Except String (List String) :=
  rows.mapM (formatSchemaRow onto)

/-- Embeds the whole display step of the schema notebook: the formatting
loop followed by printing the header line and the collected output
lines.  The value is the sequence of lines written to standard output,
or the uncaught exception. -/
def printSchema (onto : Ontology) (rows : List SchemaRow) : Except String (List String) := do
  let output ← formatSchema onto rows
  Except.ok ("Time-Series Test Data Schema:" :: output)

/-- A result row of the electrolyte notebook query
(`SELECT ?electrolyte ?electrolyteLabel ?component ?amount ?componentLabel`).
All five variables come from required triple patterns, but the formatter
guards the label columns, so they are modelled as possibly unbound. -/
structure ElectrolyteRow where
  electrolyte : String
  electrolyteLabel : Option String
  component : String
  amount : String
  componentLabel : Option String
deriving DecidableEq, Repr

/-- Embeds `row.componentLabel if row.componentLabel else row.component`:
the component label when it is bound and truthy (non-empty text), the
raw component identifier otherwise. -/
def component_label (row : ElectrolyteRow) : String :=
  match row.componentLabel with
  | none => row.component
  | some s => if s.isEmpty then row.component else s

/-- Embeds `row.electrolyteLabel if row.electrolyteLabel else
row.electrolyte`, the same falsiness-guarded fallback for the
electrolyte label. -/
def electrolyte_label (row : ElectrolyteRow) : String :=
  match row.electrolyteLabel with
  | none => row.electrolyte
  | some s => if s.isEmpty then row.electrolyte else s

/-- Embeds the whole display step of the electrolyte notebook: the loop
appends one component line per row and rebinds `electrolyte_label` each
iteration, so after the loop it holds the last row's value; printing
starts with the electrolyte line.  On an empty result sequence the
variable `electrolyte_label` was never assigned and the print raises
NameError. -/
def electrolyteDisplay (rows : List ElectrolyteRow) : Except String (List String) :=
  let output := rows.map (fun row =>
    "Component: " ++ component_label row ++ ", Volume Fraction: " ++ row.amount)
  match rows.getLast? with
  | none => Except.error "NameError: name electrolyte_label is not defined"
  | some last => Except.ok (("Electrolyte: " ++ electrolyte_label last) :: output)

/-- Embeds the schema notebook query string built in step 4: a fixed
SPARQL text with the `hasMeasurementUnit` IRI spliced in at
query-construction time. -/
def buildSchemaQuery (hasMeasurementUnitIri : String) : String :=
  "\nPREFIX emmo: <https://w3id.org/emmo/domain/battery/>\n" ++
  "PREFIX csvw: <http://www.w3.org/ns/csvw#>\n" ++
  "PREFIX rdfs: <http://www.w3.org/2000/01/rdf-schema#>\n" ++
  "SELECT ?columnName ?columnTitle ?propertyType ?propertyClass ?unit ?required WHERE \x7b\n" ++
  "    ?column a csvw:Column ;\n" ++
  "            csvw:name ?columnName ;\n" ++
  "            csvw:titles ?columnTitle ;\n" ++
  "            csvw:propertyUrl ?propertyType .\n" ++
  "    OPTIONAL \x7b ?column csvw:required ?required . \x7d\n" ++
  "    OPTIONAL \x7b ?column <" ++ hasMeasurementUnitIri ++ "> ?unit . \x7d\n" ++
  "    OPTIONAL \x7b ?propertyType a ?propertyClass . \x7d\n" ++
  "\x7d\n"

/-- An RDF triple as parsed into the graph. -/
structure Triple where
  subj : String
  pred : String
  obj : String
deriving DecidableEq, Repr

/-- The RDF graph `g`: the set of triples obtained from parsing the
JSON-LD document, represented by the list the parser produced. -/
abbrev Graph := List Triple

/-- Embeds steps 4 to 6 of the schema notebook after the graph is parsed:
build the query string, execute it (`g.query` is the external engine, a
pure function of the graph and the query text), then run the display
step.  The state threads the graph, which no step writes to. -/
def runSchemaTail (engine : Graph → String → List SchemaRow)
    (hasMeasurementUnitIri : String) (onto : Ontology) (g : Graph) :
    Graph × Except String (List String) :=
  let query := buildSchemaQuery hasMeasurementUnitIri
  let results := engine g query
  (g, printSchema onto results)

/-- Embeds steps 4 to 6 of the electrolyte notebook after the graph is
parsed: execute the fixed query and run the display step, threading the
graph unchanged. -/
def runElectrolyteTail (engine : Graph → List ElectrolyteRow) (g : Graph) :
    Graph × Except String (List String) :=
  let results := engine g
  (g, electrolyteDisplay results)

/-! Concrete data for the end-to-end scenarios recorded in the
notebooks' stored outputs. -/

/-- The slice of the battinfo label index the schema notebook scenario
touches: the three property classes and the three units, each with its
preferred label. -/
def exampleIndex : Ontology :=
  [⟨"https://w3id.org/emmo/domain/battery#TestTime", ["TestTime"]⟩,
   ⟨"https://w3id.org/emmo/domain/battery#Voltage", ["Voltage"]⟩,
   ⟨"https://w3id.org/emmo/domain/battery#ElectricCurrent", ["ElectricCurrent"]⟩,
   ⟨"https://w3id.org/emmo#MilliSecond", ["MilliSecond"]⟩,
   ⟨"https://w3id.org/emmo#Volt", ["Volt"]⟩,
   ⟨"https://w3id.org/emmo#Ampere", ["Ampere"]⟩]

/-- The test-time column row of the schema scenario. -/
def timeRow : SchemaRow :=
  ⟨"test_time_millisecond", "Test Time  /  ms", "https://w3id.org/emmo/domain/battery#testTime",
   some "https://w3id.org/emmo/domain/battery#TestTime", some "https://w3id.org/emmo#MilliSecond",
   some "true"⟩

/-- The voltage column row of the schema scenario. -/
def voltageRow : SchemaRow :=
  ⟨"voltage_volt", "Voltage  /  V", "https://w3id.org/emmo/domain/battery#voltage",
   some "https://w3id.org/emmo/domain/battery#Voltage", some "https://w3id.org/emmo#Volt",
   some "true"⟩

/-- The current column row of the schema scenario. -/
def currentRow : SchemaRow :=
  ⟨"current_ampere", "Current  /  A", "https://w3id.org/emmo/domain/battery#current",
   some "https://w3id.org/emmo/domain/battery#ElectricCurrent", some "https://w3id.org/emmo#Ampere",
   some "true"⟩

/-- The electrolyte label shared by the three component rows of the
electrolyte scenario. -/
def elyteLabel : String := "1M LiPF6 in DMC:EC:EMC 1:1:1 (vol.) + 2 wt% VC"

/-- The ethylene carbonate component row of the electrolyte scenario. -/
def ecRow : ElectrolyteRow :=
  ⟨"urn:uuid:elyte-1", some elyteLabel, "urn:uuid:comp-ec", "0.334", some "ethylene carbonate"⟩

/-- The diethylene carbonate component row of the electrolyte scenario. -/
def decRow : ElectrolyteRow :=
  ⟨"urn:uuid:elyte-1", some elyteLabel, "urn:uuid:comp-dec", "0.333", some "diethylene carbonate"⟩

/-- The dimethyl carbonate component row of the electrolyte scenario. -/
def dmcRow : ElectrolyteRow :=
  ⟨"urn:uuid:elyte-1", some elyteLabel, "urn:uuid:comp-dmc", "0.333", some "dimethyl carbonate"⟩

/-- A schema row whose property-class and unit identifiers are absent
from the (empty) label index. -/
def orphanRow : SchemaRow :=
  ⟨"col", "Col Title", "https://example.org/prop",
   some "https://example.org/absentClass", some "https://example.org/absentUnit", some "true"⟩

/-- An electrolyte row whose label columns are unbound. -/
def unlabeledRow : ElectrolyteRow :=
  ⟨"urn:uuid:elyte-2", none, "urn:uuid:comp-x", "0.5", none⟩

/-- An electrolyte row whose label columns are bound to empty-string
literals. -/
def emptyLabelRow : ElectrolyteRow :=
  ⟨"urn:uuid:elyte-3", some "", "urn:uuid:comp-y", "0.25", some ""⟩

/-- First of two electrolyte rows carrying differing electrolyte
labels. -/
def elyteRowA : ElectrolyteRow :=
  ⟨"urn:uuid:eA", some "Label A", "urn:uuid:cA", "0.1", some "comp A"⟩

/-- Second of two electrolyte rows carrying differing electrolyte
labels. -/
def elyteRowB : ElectrolyteRow :=
  ⟨"urn:uuid:eB", some "Label B", "urn:uuid:cB", "0.9", some "comp B"⟩

/-- A sample parsed triple, for exercising the pipeline on a concrete
graph. -/
def sampleTriple : Triple := ⟨"urn:s", "urn:p", "urn:o"⟩

/-- A schema row whose property class is present in the label index but
whose unit identifier is absent from it. -/
def unitOrphanRow : SchemaRow :=
  ⟨"col2", "Col2 Title", "https://example.org/prop2",
   some "https://w3id.org/emmo/domain/battery#Voltage",
   some "https://example.org/absentUnit", some "true"⟩

/-- A one-entry label index whose only term carries no labels. -/
def noLabelIndex : Ontology := [⟨"https://example.org/unlabeled", []⟩]

/-- A schema row whose property-class identifier is present in
`noLabelIndex` but resolves to a term with an empty label list. -/
def noLabelRow : SchemaRow :=
  ⟨"col3", "Col3 Title", "https://example.org/prop3",
   some "https://example.org/unlabeled", some "https://example.org/unlabeled",
   some "true"⟩

/-! Helper lemmas about the label-resolution step. -/

/-- A term identifier absent from the label index makes `resolve` raise
the AttributeError of `.prefLabel` on `None`. -/
theorem resolve_error_of_absent (onto : Ontology) (v : Option String)
    (h : search_one onto v = none) :
    resolve onto v =
      Except.error "AttributeError: NoneType object has no attribute prefLabel" := by
  unfold resolve
  rw [h]

/-- A term present in the label index with an empty label list makes
`resolve` raise the IndexError of `prefLabel[0]`. -/
theorem resolve_error_of_no_labels (onto : Ontology) (v : Option String) (t : OntoTerm)
    (hf : search_one onto v = some t) (hl : t.prefLabel = []) :
    resolve onto v = Except.error "IndexError: list index out of range" := by
  obtain ⟨ti, tl⟩ := t
  simp only at hl
  subst hl
  unfold resolve
  rw [hf]

/-- If either label resolution of a schema row raises, the whole
formatting of that row raises. -/
theorem formatSchemaRow_error_of_resolve_error (onto : Ontology) (row : SchemaRow)
    (h : (∃ e, resolve onto row.propertyClass = Except.error e) ∨
         (∃ e, resolve onto row.unit = Except.error e)) :
    ∃ e, formatSchemaRow onto row = Except.error e := by
  rcases h with ⟨e, he⟩ | ⟨e, he⟩
  · refine ⟨e, ?_⟩
    unfold formatSchemaRow
    rw [he]
    rfl
  · cases hp : resolve onto row.propertyClass with
    | error e2 =>
      refine ⟨e2, ?_⟩
      unfold formatSchemaRow
      rw [hp]
      rfl
    | ok p =>
      refine ⟨e, ?_⟩
      unfold formatSchemaRow
      rw [hp, he]
      rfl

/-! Claims. -/

/-- C1: for every result row processed by the schema-notebook formatter,
the printed required status is "Required" if and only if the row's
required value is bound and its text, lowercased, equals "true"; for
every other value (unbound, "false", or any other text) the formatter
prints "Optional". -/
theorem C1_required_status_iff (v : Option String) :
    required_status v = "Required" ↔ ∃ s, v = some s ∧ lower s = "true" := by
  cases v with
  | none => simp [required_status]
  | some s =>
    simp only [required_status, Option.some.injEq]
    constructor
    · intro h
      by_cases hc : (!s.isEmpty && (lower s == "true")) = true
      · refine ⟨s, rfl, ?_⟩
        have := (Bool.and_eq_true _ _).mp hc
        exact eq_of_beq this.2
      · rw [if_neg hc] at h
        exact absurd h (by decide)
    · rintro ⟨t, ht1, ht2⟩
      cases ht1
      have hne : s.isEmpty = false := by
        cases he : s.isEmpty
        · rfl
        · exfalso
          have h0 : s = "" := (String.isEmpty_iff s).mp he
          rw [h0] at ht2
          exact absurd ht2 (by decide)
      rw [if_pos]
      rw [hne, ht2]
      decide

/-- C3: on the three-column schema scenario (test_time_millisecond,
voltage_volt, current_ampere, each required, units MilliSecond, Volt and
Ampere, property classes present in the label index) the formatter
outputs exactly three lines, each of the form
"Column: name (title), Property Class: class, Unit: unit, Required: Required". -/
theorem C3_schema_scenario :
    formatSchema exampleIndex [timeRow, voltageRow, currentRow] =
      Except.ok
        ["Column: test_time_millisecond (Test Time  /  ms), Property Class: TestTime, Unit: MilliSecond, Required: Required",
         "Column: voltage_volt (Voltage  /  V), Property Class: Voltage, Unit: Volt, Required: Required",
         "Column: current_ampere (Current  /  A), Property Class: ElectricCurrent, Unit: Ampere, Required: Required"] := by
  rfl

/-- C4: on the three-component electrolyte scenario the display step
prints the electrolyte label exactly once, followed by exactly three
"Component: label, Volume Fraction: amount" lines in row order. -/
theorem C4_electrolyte_scenario :
    electrolyteDisplay [ecRow, decRow, dmcRow] =
      Except.ok
        ["Electrolyte: 1M LiPF6 in DMC:EC:EMC 1:1:1 (vol.) + 2 wt% VC",
         "Component: ethylene carbonate, Volume Fraction: 0.334",
         "Component: diethylene carbonate, Volume Fraction: 0.333",
         "Component: dimethyl carbonate, Volume Fraction: 0.333"] := by
  rfl

/-- C1 witness: the status is "Required" on the concrete bound value
"TRUE". -/
theorem C1_required_status_iff_witness :
    required_status (some "TRUE") = "Required" :=
  (C1_required_status_iff (some "TRUE")).mpr ⟨"TRUE", rfl, by decide⟩

/-- C2 counterexample: on a concrete row whose property-class identifier
is absent from the label index, the schema formatter raises an uncaught
AttributeError instead of falling back to the raw identifier. -/
theorem C2_counterexample :
    formatSchemaRow [] orphanRow =
      Except.error "AttributeError: NoneType object has no attribute prefLabel" := by
  rfl

/-- C2 (amended): when a term identifier — property class or unit — is
absent from the label index the schema-notebook formatter faults with an
uncaught error rather than falling back; only the electrolyte notebook
falls back to the raw identifier, and only for its unbound or empty
label columns. -/
theorem C2_fallback_only_in_electrolyte :
    (∀ onto : Ontology, ∀ row : SchemaRow,
      search_one onto row.propertyClass = none ∨ search_one onto row.unit = none →
      ∃ e, formatSchemaRow onto row = Except.error e) ∧
    (∀ row : ElectrolyteRow, row.componentLabel = none ∨ row.componentLabel = some "" →
      component_label row = row.component) ∧
    (∀ row : ElectrolyteRow, row.electrolyteLabel = none ∨ row.electrolyteLabel = some "" →
      electrolyte_label row = row.electrolyte) := by
  refine ⟨fun onto row h => ?_, fun row h => ?_, fun row h => ?_⟩
  · refine formatSchemaRow_error_of_resolve_error onto row ?_
    rcases h with h | h
    · exact Or.inl ⟨_, resolve_error_of_absent onto row.propertyClass h⟩
    · exact Or.inr ⟨_, resolve_error_of_absent onto row.unit h⟩
  · rcases h with h | h
    · unfold component_label
      rw [h]
    · unfold component_label
      rw [h]
      rfl
  · rcases h with h | h
    · unfold electrolyte_label
      rw [h]
    · unfold electrolyte_label
      rw [h]
      rfl

/-- C2 witness: the amended behaviors at concrete inputs — the schema
formatter faults on a row whose unit identifier alone is absent (its
property class resolves), and the electrolyte fallback yields the raw
identifiers both for an unbound label and for an empty-string label. -/
theorem C2_fallback_only_in_electrolyte_witness :
    (∃ e, formatSchemaRow exampleIndex unitOrphanRow = Except.error e) ∧
    component_label unlabeledRow = "urn:uuid:comp-x" ∧
    electrolyte_label emptyLabelRow = "urn:uuid:elyte-3" :=
  ⟨C2_fallback_only_in_electrolyte.1 exampleIndex unitOrphanRow (Or.inr rfl),
   C2_fallback_only_in_electrolyte.2.1 unlabeledRow (Or.inl rfl),
   C2_fallback_only_in_electrolyte.2.2 emptyLabelRow (Or.inr rfl)⟩

/-- C5: for a term identifier present in the label index with at least
one label, the formatter's label-resolution step emits the first label
of the list, and never the raw identifier when the two differ. -/
theorem C5_first_label (onto : Ontology) (iri : String) (t : OntoTerm) (l : String)
    (ls : List String) (hfind : search_one onto (some iri) = some t)
    (hlabel : t.prefLabel = l :: ls) :
    resolve onto (some iri) = Except.ok l ∧
    (l ≠ iri → resolve onto (some iri) ≠ Except.ok iri) := by
  obtain ⟨ti, tl⟩ := t
  simp only at hlabel
  subst hlabel
  have hres : resolve onto (some iri) = Except.ok l := by
    unfold resolve
    rw [hfind]
  refine ⟨hres, fun hne hok => hne ?_⟩
  rw [hres] at hok
  exact Except.ok.inj hok

/-- C5 witness: resolving the Volt unit IRI against the concrete index
yields the label "Volt", not the IRI. -/
theorem C5_first_label_witness :
    resolve exampleIndex (some "https://w3id.org/emmo#Volt") = Except.ok "Volt" ∧
    ("Volt" ≠ "https://w3id.org/emmo#Volt" →
      resolve exampleIndex (some "https://w3id.org/emmo#Volt") ≠
        Except.ok "https://w3id.org/emmo#Volt") :=
  C5_first_label exampleIndex "https://w3id.org/emmo#Volt"
    ⟨"https://w3id.org/emmo#Volt", ["Volt"]⟩ "Volt" [] rfl rfl

/-- C6 counterexample: with zero result rows the schema notebook display
step does not fault — it prints the well-formed (empty) report
consisting of the header line alone. -/
theorem C6_counterexample :
    printSchema exampleIndex [] = Except.ok ["Time-Series Test Data Schema:"] := by
  rfl

/-- C6 (amended): a missing label for a term — the property-class or
unit identifier absent from the index, or its term present with an
empty label list — halts the schema formatter with an uncaught fault,
and on zero result rows the electrolyte notebook's display step halts
with an uncaught NameError — but the schema notebook's display step
prints only its header line and terminates normally. -/
theorem C6_zero_rows_behavior :
    electrolyteDisplay [] =
      Except.error "NameError: name electrolyte_label is not defined" ∧
    (∀ onto : Ontology, printSchema onto [] = Except.ok ["Time-Series Test Data Schema:"]) ∧
    (∀ onto : Ontology, ∀ row : SchemaRow,
      search_one onto row.propertyClass = none ∨
      (∃ t, search_one onto row.propertyClass = some t ∧ t.prefLabel = []) ∨
      search_one onto row.unit = none ∨
      (∃ t, search_one onto row.unit = some t ∧ t.prefLabel = []) →
      ∃ e, formatSchemaRow onto row = Except.error e) := by
  refine ⟨rfl, fun onto => rfl, fun onto row h => ?_⟩
  refine formatSchemaRow_error_of_resolve_error onto row ?_
  rcases h with h | ⟨t, hf, hl⟩ | h | ⟨t, hf, hl⟩
  · exact Or.inl ⟨_, resolve_error_of_absent onto row.propertyClass h⟩
  · exact Or.inl ⟨_, resolve_error_of_no_labels onto row.propertyClass t hf hl⟩
  · exact Or.inr ⟨_, resolve_error_of_absent onto row.unit h⟩
  · exact Or.inr ⟨_, resolve_error_of_no_labels onto row.unit t hf hl⟩

/-- C6 witness: the amended behaviors at concrete inputs — the
electrolyte display faults on zero rows, the schema display prints just
the header, and the schema formatter faults both on a row whose
identifiers have no index entry and on a row whose identifier resolves
to a term with an empty label list. -/
theorem C6_zero_rows_behavior_witness :
    electrolyteDisplay [] =
      Except.error "NameError: name electrolyte_label is not defined" ∧
    printSchema exampleIndex [] = Except.ok ["Time-Series Test Data Schema:"] ∧
    (∃ e, formatSchemaRow [] orphanRow = Except.error e) ∧
    (∃ e, formatSchemaRow noLabelIndex noLabelRow = Except.error e) :=
  ⟨C6_zero_rows_behavior.1, C6_zero_rows_behavior.2.1 exampleIndex,
   C6_zero_rows_behavior.2.2 [] orphanRow (Or.inl rfl),
   C6_zero_rows_behavior.2.2 noLabelIndex noLabelRow
     (Or.inr (Or.inl ⟨⟨"https://example.org/unlabeled", []⟩, rfl, rfl⟩))⟩

/-- C7: the graph is read-only after construction — every post-parse
step of either notebook (query construction, query execution, result
formatting, printing) leaves the set of triples unchanged. -/
theorem C7_graph_readonly (schemaEngine : Graph → String → List SchemaRow)
    (electrolyteEngine : Graph → List ElectrolyteRow) (unitIri : String)
    (onto : Ontology) (g : Graph) :
    (runSchemaTail schemaEngine unitIri onto g).1 = g ∧
    (runElectrolyteTail electrolyteEngine g).1 = g :=
  ⟨rfl, rfl⟩

/-- C7 witness: the pipeline tails leave a concrete one-triple graph
unchanged. -/
theorem C7_graph_readonly_witness :
    (runSchemaTail (fun _ _ => []) "urn:unit" exampleIndex [sampleTriple]).1 =
      [sampleTriple] ∧
    (runElectrolyteTail (fun _ => []) [sampleTriple]).1 = [sampleTriple] :=
  C7_graph_readonly (fun _ _ => []) (fun _ => []) "urn:unit" exampleIndex [sampleTriple]

/-- C8: the printed "Electrolyte:" line shows the label of the last row
iterated — for every non-empty result sequence the display output starts
with the last row's electrolyte label, so all earlier rows' electrolyte
labels are discarded. -/
theorem C8_last_row_label (rows : List ElectrolyteRow) (h : rows ≠ []) :
    electrolyteDisplay rows =
      Except.ok (("Electrolyte: " ++ electrolyte_label (rows.getLast h)) ::
        rows.map (fun row =>
          "Component: " ++ component_label row ++ ", Volume Fraction: " ++ row.amount)) := by
  unfold electrolyteDisplay
  rw [List.getLast?_eq_getLast rows h]

/-- C8 witness: on two concrete rows with differing electrolyte labels,
only the second row's label "Label B" is printed. -/
theorem C8_last_row_label_witness :
    electrolyteDisplay [elyteRowA, elyteRowB] =
      Except.ok ["Electrolyte: Label B",
        "Component: comp A, Volume Fraction: 0.1",
        "Component: comp B, Volume Fraction: 0.9"] := by
  rw [C8_last_row_label [elyteRowA, elyteRowB] (List.cons_ne_nil _ _)]
  rfl

/-- C9: the electrolyte fallback is triggered by falsiness, not only by
unboundness — a label column bound to an empty-string literal is
displayed as the raw identifier. -/
theorem C9_falsy_fallback (row : ElectrolyteRow) :
    (row.componentLabel = some "" → component_label row = row.component) ∧
    (row.electrolyteLabel = some "" → electrolyte_label row = row.electrolyte) := by
  constructor
  · intro h
    unfold component_label
    rw [h]
    rfl
  · intro h
    unfold electrolyte_label
    rw [h]
    rfl

/-- C9 witness: the row whose labels are bound to empty strings is
displayed via the raw identifiers. -/
theorem C9_falsy_fallback_witness :
    component_label emptyLabelRow = "urn:uuid:comp-y" ∧
    electrolyte_label emptyLabelRow = "urn:uuid:elyte-3" :=
  ⟨(C9_falsy_fallback emptyLabelRow).1 rfl, (C9_falsy_fallback emptyLabelRow).2 rfl⟩

/-- C10: each formatter is deterministic — given equal result-row
sequences and equal label indices, the display steps of both notebooks
produce identical output lines. -/
theorem C10_deterministic (onto onto2 : Ontology) (rows rows2 : List SchemaRow)
    (erows erows2 : List ElectrolyteRow)
    (h1 : onto = onto2) (h2 : rows = rows2) (h3 : erows = erows2) :
    printSchema onto rows = printSchema onto2 rows2 ∧
    electrolyteDisplay erows = electrolyteDisplay erows2 := by
  subst h1
  subst h2
  subst h3
  exact ⟨rfl, rfl⟩

/-- C10 witness: determinism at concrete inputs. -/
theorem C10_deterministic_witness :
    printSchema exampleIndex [timeRow] = printSchema exampleIndex [timeRow] ∧
    electrolyteDisplay [ecRow] = electrolyteDisplay [ecRow] :=
  C10_deterministic exampleIndex exampleIndex [timeRow] [timeRow] [ecRow] [ecRow]
    rfl rfl rfl
